import Mathlib

/-!
Shallow embedding of the lispy core evaluator (src/lispy/core/__init__.py).

Every concrete class of the source becomes one constructor of the closed
term type below, and every method becomes a Lean function on that type.
Fallible Python code (methods that raise, attribute lookups on objects that
lack the attribute) is embedded in the Except monad; the error type names
the Python exception raised at the corresponding place in the source.
Because the reduction of a SymbolList re-applies the result of an inner
application, apply_to is not structurally recursive, so the embedding
threads an explicit fuel counter; fuel exhaustion is a distinguished error
that a separate monotonicity lemma lets every theorem discharge.
-/

/-- Values boxed by a SymbolAtom: a Python int or a Python str. -/
inductive Literate where
  | int : Int → Literate
  | str : String → Literate
deriving DecidableEq

/-- The four concrete subclasses of BinaryOperator in the source:
PlusOperator, SubtractOperator, MultiplyOperator, DivideOperator. -/
inductive OpKind where
  | plus
  | subtract
  | multiply
  | divide
deriving DecidableEq

/-- Failure outcomes, named after the Python exception the source raises at
the corresponding program point.  attributeError carries the name of the
missing attribute, as the Python AttributeError message does.
stackOverflow is the fuel-exhaustion marker of the embedding; it stands for
a reduction that the source would run beyond any given recursion depth. -/
inductive Err where
  | notImplementedError
  | valueError
  | attributeError : String → Err
  | zeroDivisionError
  | typeError
  | stackOverflow
deriving DecidableEq

/-- Terms of the evaluator; one constructor per concrete class of the
source.  symbolList is the cons cell (fields _head and _tail);
lambdaFunction holds _para and _body; binaryOperator holds the operand
slots _x and _y, which Python initialises to None, hence the Option.
CarOperator and CdrOperator define no __str__ of their own, and since
Function.__repr__ delegates to __str__, which for them dispatches back to
__repr__, rendering or comparing such an object in the source never
terminates (RecursionError); see renderable below.  The Nat field models
the per-instance identity of distinct operator objects and is
observationally inert in the theorems. -/
inductive Term where
  | symbolAtom : Literate → Term
  | symbolList : Term → Term → Term
  | nilSymbolList : Term
  | lambdaFunction : Term → Term → Term
  | lambdaOperator : Term
  | binaryOperator : OpKind → Option Term → Option Term → Term
  | carOperator : Nat → Term
  | cdrOperator : Nat → Term

/-- The _op marker string each BinaryOperator subclass installs. -/
def opStr : OpKind → String
  | .plus => "+"
  | .subtract => "-"
  | .multiply => "*"
  | .divide => "/"

/-- The single-quote character used by SymbolAtom string rendering. -/
def quoteMark : String := String.singleton (Char.ofNat 39)

/-- Translation of the per-class __str__ methods (repr delegates to str
via Function.__repr__).
SymbolAtom: a quote mark plus the name for str literates, the bare number
otherwise.  SymbolList: the Python format [%s, %s] where the second slot is
str(tail) with its first and last character stripped.  NilSymbolList:
[NIL].  LambdaFunction: (%s -> %s).  LambdaOperator: <lambda>.
BinaryOperator: <%s%s> where the second slot joins the non-None operands
with a space.
CarOperator and CdrOperator define no __str__ at all; in the source,
str, repr, and therefore == on such an object raise RecursionError
(Function.__repr__ calls __str__, which dispatches back to __repr__), so
the source produces no string for them.  To keep this function total, the
two branches below return an explicitly labelled placeholder that no
source rendering can ever produce; every theorem about rendering or
render-equality is restricted by the renderable predicate below, so no
stated result depends on the value of these placeholder branches. -/
def Term.str : Term → String
  | .symbolAtom (.int i) => toString i
  | .symbolAtom (.str s) => quoteMark ++ s
  | .symbolList h t => "[" ++ h.str ++ ", " ++ ((Term.str t).drop 1).dropRight 1 ++ "]"
  | .nilSymbolList => "[NIL]"
  | .lambdaFunction p b => "(" ++ p.str ++ " -> " ++ b.str ++ ")"
  | .lambdaOperator => "<lambda>"
  | .binaryOperator k none none => "<" ++ opStr k ++ ">"
  | .binaryOperator k (some x) none => "<" ++ opStr k ++ x.str ++ ">"
  | .binaryOperator k none (some y) => "<" ++ opStr k ++ y.str ++ ">"
  | .binaryOperator k (some x) (some y) => "<" ++ opStr k ++ x.str ++ " " ++ y.str ++ ">"
  | .carOperator a => "<RecursionError CarOperator " ++ toString a ++ ">"
  | .cdrOperator a => "<RecursionError CdrOperator " ++ toString a ++ ">"

/-- Symbol.__eq__: two symbols are equal when their repr strings are equal. -/
def pyEq (a b : Term) : Bool := a.str == b.str

/-- The terms on which the rendering of the source terminates: every term
that contains no CarOperator and no CdrOperator anywhere, in list cells,
lambda parameters and bodies, or operator operand slots.  On any other
term the source raises RecursionError from str, repr, and ==, so only on
renderable terms does Term.str model an observable string of the source
and pyEq an observable comparison. -/
def renderable : Term → Bool
  | .symbolAtom _ => true
  | .symbolList h t => renderable h && renderable t
  | .nilSymbolList => true
  | .lambdaFunction p b => renderable p && renderable b
  | .lambdaOperator => true
  | .binaryOperator _ xo yo =>
      (match xo with | some x => renderable x | none => true)
      && (match yo with | some y => renderable y | none => true)
  | .carOperator _ => false
  | .cdrOperator _ => false

/-- Translation of the replace methods.  SymbolAtom, LambdaFunction,
LambdaOperator, CarOperator and CdrOperator inherit Symbol.replace, which
returns v when self == k and self otherwise.  SymbolList.replace maps over
head and tail.  NilSymbolList.replace returns self.  BinaryOperator.replace
ignores occurrence entirely: a key equal to SymbolAtom of the string x
binds the first operand slot, a key equal to SymbolAtom of the string y
binds the second, anything else leaves the operator unchanged. -/
def Term.replace : Term → Term → Term → Term
  | .symbolAtom v, k, w =>
      if pyEq (.symbolAtom v) k then w else .symbolAtom v
  | .symbolList h t, k, w => .symbolList (h.replace k w) (t.replace k w)
  | .nilSymbolList, _, _ => .nilSymbolList
  | .lambdaFunction p b, k, w =>
      if pyEq (.lambdaFunction p b) k then w else .lambdaFunction p b
  | .lambdaOperator, k, w =>
      if pyEq .lambdaOperator k then w else .lambdaOperator
  | .binaryOperator kd xo yo, k, w =>
      if pyEq k (.symbolAtom (.str "x")) then .binaryOperator kd (some w) yo
      else if pyEq k (.symbolAtom (.str "y")) then .binaryOperator kd xo (some w)
      else .binaryOperator kd xo yo
  | .carOperator a, k, w =>
      if pyEq (.carOperator a) k then w else .carOperator a
  | .cdrOperator a, k, w =>
      if pyEq (.cdrOperator a) k then w else .cdrOperator a

/-- The head method: defined only on the SymbolList class; calling it on
any other object raises AttributeError in Python. -/
def Term.head : Term → Except Err Term
  | .symbolList h _ => .ok h
  | _ => .error (.attributeError "head")

/-- The tail method: defined only on the SymbolList class; calling it on
any other object raises AttributeError in Python. -/
def Term.tail : Term → Except Err Term
  | .symbolList _ t => .ok t
  | _ => .error (.attributeError "tail")

/-- Reading an operand slot of a BinaryOperator: self._x.getLiterate().
getLiterate is defined only on SymbolAtom, so an unbound slot (None) or a
slot bound to a non-atom raises AttributeError. -/
def getLiterate : Option Term → Except Err Literate
  | some (.symbolAtom v) => .ok v
  | _ => .error (.attributeError "getLiterate")

/-- The op method of each BinaryOperator subclass, applied to the boxed
Python values.  Integer arithmetic follows Python 2 semantics of the
source, where the slash on two ints is floor division; division by zero
raises ZeroDivisionError.  On strings, plus concatenates and multiply with
an int repeats; the remaining mixed-type combinations raise TypeError. -/
def OpKind.op : OpKind → Literate → Literate → Except Err Literate
  | .plus, .int a, .int b => .ok (.int (a + b))
  | .plus, .str a, .str b => .ok (.str (a ++ b))
  | .subtract, .int a, .int b => .ok (.int (a - b))
  | .multiply, .int a, .int b => .ok (.int (a * b))
  | .multiply, .str a, .int b => .ok (.str (String.join (List.replicate b.toNat a)))
  | .multiply, .int a, .str b => .ok (.str (String.join (List.replicate a.toNat b)))
  | .divide, .int a, .int b =>
      if b = 0 then .error .zeroDivisionError else .ok (.int (Int.fdiv a b))
  | _, _, _ => .error .typeError

/-- Translation of the apply_to methods, with explicit fuel.
SymbolAtom returns itself on a NilSymbolList argument and raises
NotImplementedError otherwise.  SymbolList applies its head to its tail
and the result to the argument.  NilSymbolList returns itself.
LambdaFunction returns itself on NilSymbolList, and otherwise substitutes
the first argument for its parameter throughout its body and applies the
result to the remaining arguments.  LambdaOperator raises ValueError on
NilSymbolList and otherwise builds a LambdaFunction from head and tail of
the argument.  BinaryOperator reads both operand slots, runs op, wraps the
result in a SymbolAtom and applies that to the argument.  CarOperator and
CdrOperator return head, resp. tail, of the argument. -/
def applyTo : Nat → Term → Term → Except Err Term
  | 0, _, _ => .error .stackOverflow
  | fuel + 1, t, xs =>
    match t with
    | .symbolAtom v =>
        match xs with
        | .nilSymbolList => .ok (.symbolAtom v)
        | _ => .error .notImplementedError
    | .symbolList h tl =>
        match applyTo fuel h tl with
        | .ok r => applyTo fuel r xs
        | .error e => .error e
    | .nilSymbolList => .ok .nilSymbolList
    | .lambdaFunction p b =>
        match xs with
        | .nilSymbolList => .ok (.lambdaFunction p b)
        | .symbolList xh xt => applyTo fuel (b.replace p xh) xt
        | _ => .error (.attributeError "head")
    | .lambdaOperator =>
        match xs with
        | .nilSymbolList => .error .valueError
        | .symbolList xh xt => .ok (.lambdaFunction xh xt)
        | _ => .error (.attributeError "head")
    | .binaryOperator kd xo yo =>
        match getLiterate xo with
        | .error e => .error e
        | .ok a =>
          match getLiterate yo with
          | .error e => .error e
          | .ok b =>
            match OpKind.op kd a b with
            | .error e => .error e
            | .ok r => applyTo fuel (.symbolAtom r) xs
    | .carOperator _ => Term.head xs
    | .cdrOperator _ => Term.tail xs

mutual

/-- Nested literal source structure fed to symbolize: a Python object that
is a string, a tuple of such objects, or a pre-built Function instance.
The tuple layer is its own inductive so that symbolize below is plain
structural recursion. -/
inductive Source where
  | str : String → Source
  | tup : SourceList → Source
  | term : Term → Source

inductive SourceList where
  | nil : SourceList
  | cons : Source → SourceList → SourceList

end

/-- Convenience conversion from a Lean list of source items. -/
def srcList : List Source → SourceList
  | [] => .nil
  | s :: rest => .cons s (srcList rest)

/-- Decimal digit run: the value of a nonempty all-digit character list,
none as soon as a non-digit appears. -/
def parseDigits : List Char → Nat → Option Nat
  | [], acc => some acc
  | c :: cs, acc =>
      if c.isDigit then parseDigits cs (acc * 10 + (c.toNat - 48)) else none

/-- The int(x) conversion attempt inside symbolize, on the decimal token
forms the source programs use: an optional leading minus sign followed by
one or more digits parses, anything else raises ValueError and is kept as
a string. -/
def tryInt (s : String) : Option Int :=
  match s.data with
  | [] => none
  | c :: cs =>
      if c = Char.ofNat 45 then
        match cs with
        | [] => none
        | _ => (parseDigits cs 0).map (fun n => -(Int.ofNat n))
      else (parseDigits (c :: cs) 0).map Int.ofNat

/-- Translation of symbolize: strings become SymbolAtoms (after the int
conversion attempt), tuples recurse into nested SymbolLists, and any other
value, in practice a pre-built operator object, passes through unchanged;
the empty source becomes NilSymbolList. -/
def symbolize : SourceList → Term
  | .nil => .nilSymbolList
  | .cons (.str s) rest =>
      match tryInt s with
      | some n => .symbolList (.symbolAtom (.int n)) (symbolize rest)
      | none => .symbolList (.symbolAtom (.str s)) (symbolize rest)
  | .cons (.tup ys) rest => .symbolList (symbolize ys) (symbolize rest)
  | .cons (.term t) rest => .symbolList t (symbolize rest)

/-- Translation of execute: symbolize the source and apply the result to
an empty NilSymbolList argument. -/
def execute (fuel : Nat) (source : SourceList) : Except Err Term :=
  applyTo fuel (symbolize source) .nilSymbolList

/-- Boolean success test on an evaluation outcome. -/
def isOkE : Except Err Term → Bool
  | .ok _ => true
  | .error _ => false

/-- Occurrence of a target anywhere in a term, compared by render
equality: the term itself, or a subterm of a list, a lambda, or an
operator operand slot, renders equal to the target.  This follows the
wording of the substitution no-op property of the specification; the
source has no corresponding function. -/
def occursIn (k : Term) : Term → Bool
  | .symbolAtom v => pyEq (.symbolAtom v) k
  | .symbolList h t => pyEq (.symbolList h t) k || occursIn k h || occursIn k t
  | .nilSymbolList => pyEq .nilSymbolList k
  | .lambdaFunction p b => pyEq (.lambdaFunction p b) k || occursIn k p || occursIn k b
  | .lambdaOperator => pyEq .lambdaOperator k
  | .binaryOperator kd xo yo =>
      pyEq (.binaryOperator kd xo yo) k
        || (match xo with | some x => occursIn k x | none => false)
        || (match yo with | some y => occursIn k y | none => false)
  | .carOperator a => pyEq (.carOperator a) k
  | .cdrOperator a => pyEq (.cdrOperator a) k

/-- The source program of the identity-lambda test: the tuple of
LambdaOperator, the string x, the string x, applied to the string z. -/
def identitySrc : SourceList :=
  srcList [Source.tup (srcList [Source.term Term.lambdaOperator, Source.str "x", Source.str "x"]),
   Source.str "z"]

/-- The curried-divide source of the specification example: the divide
operator followed by the tokens 1 and 0. -/
def curriedDivideSrc : SourceList :=
  srcList [Source.term (Term.binaryOperator .divide none none),
   Source.str "1", Source.str "0"]

/-- The divide-by-zero source in the binding style the repository tests
use: a lambda binds x, an inner lambda binds y, the divide operator reads
both, applied to the tokens 1 and 0. -/
def boundDivideZeroSrc : SourceList :=
  srcList [Source.tup (srcList [Source.term Term.lambdaOperator, Source.str "x",
               Source.term Term.lambdaOperator, Source.str "y",
               Source.term (Term.binaryOperator .divide none none)]),
   Source.str "1", Source.str "0"]

/-- The cdr test program: the cdr operator applied to the three symbol
tokens x, y, z. -/
def cdrSrc : SourceList :=
  srcList [Source.term (Term.cdrOperator 0),
   Source.str "x", Source.str "y", Source.str "z"]

/-- Fuel monotonicity: once an application settles at some fuel without
exhausting it, every larger fuel gives the same outcome.  This lets the
concrete-execution theorems hold for every sufficiently large fuel. -/
theorem applyTo_mono : ∀ (n m : Nat) (t xs : Term), n ≤ m →
    applyTo n t xs ≠ Except.error Err.stackOverflow →
    applyTo m t xs = applyTo n t xs := by
  intro n
  induction n with
  | zero =>
    intro m t xs _ hne
    exact absurd rfl hne
  | succ k ih =>
    intro m t xs hm hne
    obtain ⟨j, rfl⟩ : ∃ j, m = j + 1 := ⟨m - 1, by omega⟩
    have hkj : k ≤ j := by omega
    cases t with
    | symbolAtom v => rfl
    | nilSymbolList => rfl
    | lambdaOperator => rfl
    | carOperator a => rfl
    | cdrOperator a => rfl
    | lambdaFunction p b =>
      cases xs with
      | nilSymbolList => rfl
      | symbolList xh xt =>
        exact ih j (b.replace p xh) xt hkj hne
      | symbolAtom v => rfl
      | lambdaFunction q c => rfl
      | lambdaOperator => rfl
      | binaryOperator kd xo yo => rfl
      | carOperator a => rfl
      | cdrOperator a => rfl
    | symbolList h tl =>
      cases hr : applyTo k h tl with
      | error e =>
        have hene : (Except.error e : Except Err Term) ≠ Except.error Err.stackOverflow := by
          intro hc
          apply hne
          simp only [applyTo, hr, hc]
        have hj : applyTo j h tl = Except.error e := by
          rw [ih j h tl hkj (by rw [hr]; exact hene), hr]
        simp only [applyTo, hj, hr]
      | ok r =>
        have hj : applyTo j h tl = Except.ok r := by
          rw [ih j h tl hkj (by rw [hr]; exact fun hc => Except.noConfusion hc), hr]
        have hne2 : applyTo k r xs ≠ Except.error Err.stackOverflow := by
          intro hc
          apply hne
          simp only [applyTo, hr, hc]
        simp only [applyTo, hj, hr]
        exact ih j r xs hkj hne2
    | binaryOperator kd xo yo =>
      cases hga : getLiterate xo with
      | error e => simp only [applyTo, hga]
      | ok a =>
        cases hgb : getLiterate yo with
        | error e => simp only [applyTo, hga, hgb]
        | ok b =>
          cases hop : OpKind.op kd a b with
          | error e => simp only [applyTo, hga, hgb, hop]
          | ok r =>
            have hne2 : applyTo k (.symbolAtom r) xs ≠ Except.error Err.stackOverflow := by
              intro hc
              apply hne
              simp only [applyTo, hga, hgb, hop, hc]
            simp only [applyTo, hga, hgb, hop]
            exact ih j (.symbolAtom r) xs hkj hne2

/-- Claim C2: executing the identity lambda applied to a symbol, the
source where a lambda with single parameter x and body x is applied to the
symbol atom z, returns the SymbolAtom z, at every sufficient fuel. -/
theorem execute_identity_lambda (fuel : Nat) :
    execute (20 + fuel) identitySrc = Except.ok (Term.symbolAtom (Literate.str "z")) := by
  have h20 : applyTo 20 (symbolize identitySrc) Term.nilSymbolList
      = Except.ok (Term.symbolAtom (Literate.str "z")) := rfl
  have hne : applyTo 20 (symbolize identitySrc) Term.nilSymbolList
      ≠ Except.error Err.stackOverflow := by
    rw [h20]
    exact fun hc => Except.noConfusion hc
  show applyTo (20 + fuel) (symbolize identitySrc) Term.nilSymbolList = _
  rw [applyTo_mono 20 (20 + fuel) _ _ (Nat.le_add_right 20 fuel) hne, h20]

/-- Claim C10: the empty list applied to any argument term whatsoever
returns itself and never fails, at every positive fuel. -/
theorem nil_apply_to_any_args (fuel : Nat) (xs : Term) :
    applyTo (fuel + 1) Term.nilSymbolList xs = Except.ok Term.nilSymbolList := rfl

/-- Claim C4: head and tail are defined only on non-empty lists; on the
empty NilSymbolList both fail (the class defines neither method, so Python
raises AttributeError there), and on a cons cell they return the stored
head and tail. -/
theorem head_tail_empty_list_errors :
    Term.head Term.nilSymbolList = Except.error (Err.attributeError "head")
    ∧ Term.tail Term.nilSymbolList = Except.error (Err.attributeError "tail")
    ∧ (∀ h t : Term, Term.head (Term.symbolList h t) = Except.ok h
        ∧ Term.tail (Term.symbolList h t) = Except.ok t) :=
  ⟨rfl, rfl, fun _ _ => ⟨rfl, rfl⟩⟩

/-- Claim C5: the lambda constructor operator applied to an empty argument
list fails (the source raises ValueError, its arity error), and applied to
a non-empty argument list returns a LambdaFunction whose parameter is the
head of the arguments and whose body is their tail. -/
theorem lambda_operator_arity_and_construction :
    (∀ fuel : Nat, applyTo (fuel + 1) Term.lambdaOperator Term.nilSymbolList
        = Except.error Err.valueError)
    ∧ (∀ (fuel : Nat) (h t : Term),
        applyTo (fuel + 1) Term.lambdaOperator (Term.symbolList h t)
          = Except.ok (Term.lambdaFunction h t)) :=
  ⟨fun _ => rfl, fun _ _ _ => rfl⟩

/-- Claim C3, counterexample: the curried divide source of the claim,
execute of the divide operator applied to the tokens 1 and 0, does not
fail with the division error; the unbound operator reads a missing operand
first, so the failure is AttributeError on getLiterate. -/
theorem execute_curried_divide_attribute_error :
    execute 10 curriedDivideSrc = Except.error (Err.attributeError "getLiterate")
    ∧ execute 10 curriedDivideSrc ≠ Except.error Err.zeroDivisionError := by
  refine ⟨rfl, ?_⟩
  intro hc
  rw [show execute 10 curriedDivideSrc
      = Except.error (Err.attributeError "getLiterate") from rfl] at hc
  injection hc with he
  exact Err.noConfusion he

/-- Claim C3, amended: when the divide operator actually reaches its op
with a zero divisor, which the repository achieves by binding both
operands through lambda substitution, evaluation fails with
ZeroDivisionError, the division-by-zero failure kind, at every sufficient
fuel. -/
theorem execute_bound_divide_zero_division (fuel : Nat) :
    execute (30 + fuel) boundDivideZeroSrc = Except.error Err.zeroDivisionError := by
  have h30 : applyTo 30 (symbolize boundDivideZeroSrc) Term.nilSymbolList
      = Except.error Err.zeroDivisionError := rfl
  have hne : applyTo 30 (symbolize boundDivideZeroSrc) Term.nilSymbolList
      ≠ Except.error Err.stackOverflow := by
    rw [h30]
    intro hc
    injection hc with he
    exact Err.noConfusion he
  show applyTo (30 + fuel) (symbolize boundDivideZeroSrc) Term.nilSymbolList = _
  rw [applyTo_mono 30 (30 + fuel) _ _ (Nat.le_add_right 30 fuel) hne, h30]

/-- Claim C8: executing the cdr operator applied to the three symbol
tokens x, y, z raises NotImplementedError at every sufficient fuel: the
resulting two-element list is re-applied to the empty list, which
decomposes it and sends the atom y a non-empty argument list.  The
repository test test_cdr instead expects the rendered two-element list, so
the code contradicts its own test here. -/
theorem execute_cdr_not_implemented (fuel : Nat) :
    execute (10 + fuel) cdrSrc = Except.error Err.notImplementedError := by
  have h10 : applyTo 10 (symbolize cdrSrc) Term.nilSymbolList
      = Except.error Err.notImplementedError := rfl
  have hne : applyTo 10 (symbolize cdrSrc) Term.nilSymbolList
      ≠ Except.error Err.stackOverflow := by
    rw [h10]
    intro hc
    injection hc with he
    exact Err.noConfusion he
  show applyTo (10 + fuel) (symbolize cdrSrc) Term.nilSymbolList = _
  rw [applyTo_mono 10 (10 + fuel) _ _ (Nat.le_add_right 10 fuel) hne, h10]

/-- Induction core for the substitution no-op property, recursing through
the term structure; spelled as a recursive definition because the nested
Option fields of Term block the induction tactic.  Both the term and the
target are required to be renderable: on anything else the source raises
RecursionError instead of returning a term at all, so the placeholder
branches of Term.str carry no weight here. -/
def replaceNoopAux : ∀ (t k v : Term),
    renderable t = true →
    renderable k = true →
    occursIn k t = false →
    pyEq k (Term.symbolAtom (Literate.str "x")) = false →
    pyEq k (Term.symbolAtom (Literate.str "y")) = false →
    Term.str (t.replace k v) = Term.str t
  | .symbolAtom w, k, v => fun _ _ hocc hx hy => by
      simp only [occursIn] at hocc
      simp [Term.replace, hocc]
  | .symbolList h tl, k, v => fun hrt hrk hocc hx hy => by
      simp only [renderable, Bool.and_eq_true] at hrt
      obtain ⟨hrh, hrtl⟩ := hrt
      simp only [occursIn, Bool.or_eq_false_iff] at hocc
      obtain ⟨⟨h1, h2⟩, h3⟩ := hocc
      simp only [Term.replace, Term.str]
      rw [replaceNoopAux h k v hrh hrk h2 hx hy, replaceNoopAux tl k v hrtl hrk h3 hx hy]
  | .nilSymbolList, k, v => fun _ _ _ _ _ => rfl
  | .lambdaFunction p b, k, v => fun _ _ hocc hx hy => by
      simp only [occursIn, Bool.or_eq_false_iff] at hocc
      obtain ⟨⟨h1, h2⟩, h3⟩ := hocc
      simp [Term.replace, h1]
  | .lambdaOperator, k, v => fun _ _ hocc hx hy => by
      simp only [occursIn] at hocc
      simp [Term.replace, hocc]
  | .binaryOperator kd xo yo, k, v => fun _ _ hocc hx hy => by
      simp [Term.replace, hx, hy]
  | .carOperator a, k, v => fun hrt _ _ _ _ => by
      simp [renderable] at hrt
  | .cdrOperator a, k, v => fun hrt _ _ _ _ => by
      simp [renderable] at hrt

/-- Claim C6: two SymbolAtoms are equal exactly when their rendered
textual forms are equal; the string atom 1 renders with the leading quote
marker while the int atom 1 renders bare, so the two render differently
and are not equal. -/
theorem atom_eq_iff_rendered_eq :
    (∀ v w : Literate,
        pyEq (Term.symbolAtom v) (Term.symbolAtom w) = true
          ↔ Term.str (Term.symbolAtom v) = Term.str (Term.symbolAtom w))
    ∧ Term.str (Term.symbolAtom (Literate.str "1")) = quoteMark ++ "1"
    ∧ Term.str (Term.symbolAtom (Literate.int 1)) = "1"
    ∧ Term.str (Term.symbolAtom (Literate.str "1")) ≠ Term.str (Term.symbolAtom (Literate.int 1))
    ∧ pyEq (Term.symbolAtom (Literate.str "1")) (Term.symbolAtom (Literate.int 1)) = false := by
  refine ⟨fun v w => ?_, rfl, rfl, by decide, rfl⟩
  simp [pyEq]

/-- Claim C7, counterexample: the atom x does not occur anywhere in the
unbound plus operator, by render equality, yet replace with target x
rewrites the operator by binding its first operand slot, so the result
renders differently from the original. -/
theorem replace_binop_not_noop :
    occursIn (Term.symbolAtom (Literate.str "x"))
        (Term.binaryOperator OpKind.plus none none) = false
    ∧ Term.str (Term.replace (Term.binaryOperator OpKind.plus none none)
        (Term.symbolAtom (Literate.str "x")) (Term.symbolAtom (Literate.int 5)))
      ≠ Term.str (Term.binaryOperator OpKind.plus none none) :=
  ⟨rfl, by decide⟩

/-- Claim C7, amended: on renderable terms and targets (those containing
no CarOperator or CdrOperator, on which the rendering of the source
terminates at all; elsewhere str, repr and == raise RecursionError, so
the source returns nothing to compare), if the target occurs nowhere in
the term by render equality and the target does not render as the atom x
or the atom y (which every BinaryOperator unconditionally treats as
operand binding commands), then replace leaves the rendering unchanged. -/
theorem replace_noop_of_not_occurs (t k v : Term)
    (hrt : renderable t = true)
    (hrk : renderable k = true)
    (hocc : occursIn k t = false)
    (hx : pyEq k (Term.symbolAtom (Literate.str "x")) = false)
    (hy : pyEq k (Term.symbolAtom (Literate.str "y")) = false) :
    Term.str (t.replace k v) = Term.str t :=
  replaceNoopAux t k v hrt hrk hocc hx hy

/-- Witness for the amended substitution no-op theorem at a concrete
term, target and value. -/
theorem replace_noop_of_not_occurs_witness :
    renderable (Term.symbolList (Term.symbolAtom (Literate.int 7)) Term.nilSymbolList) = true
    ∧ renderable (Term.symbolAtom (Literate.str "q")) = true
    ∧ occursIn (Term.symbolAtom (Literate.str "q"))
        (Term.symbolList (Term.symbolAtom (Literate.int 7)) Term.nilSymbolList) = false
    ∧ pyEq (Term.symbolAtom (Literate.str "q")) (Term.symbolAtom (Literate.str "x")) = false
    ∧ pyEq (Term.symbolAtom (Literate.str "q")) (Term.symbolAtom (Literate.str "y")) = false
    ∧ Term.str (Term.replace
        (Term.symbolList (Term.symbolAtom (Literate.int 7)) Term.nilSymbolList)
        (Term.symbolAtom (Literate.str "q")) (Term.symbolAtom (Literate.int 1)))
      = Term.str (Term.symbolList (Term.symbolAtom (Literate.int 7)) Term.nilSymbolList) :=
  ⟨rfl, rfl, rfl, rfl, rfl, replace_noop_of_not_occurs _ _ _ rfl rfl rfl rfl rfl⟩

/-- Claim C1, counterexample: applying the unbound plus operator to the
one-element argument list holding the atom 1 does not return a bound
operator instance; it fails with AttributeError, because apply_to
unconditionally reads both operand slots and the first is None. -/
theorem binop_unbound_apply_counterexample :
    applyTo 2 (Term.binaryOperator OpKind.plus none none)
        (Term.symbolList (Term.symbolAtom (Literate.int 1)) Term.nilSymbolList)
      = Except.error (Err.attributeError "getLiterate")
    ∧ isOkE (applyTo 2 (Term.binaryOperator OpKind.plus none none)
        (Term.symbolList (Term.symbolAtom (Literate.int 1)) Term.nilSymbolList)) = false :=
  ⟨rfl, rfl⟩

/-- Claim C1, amended: a binary operator binds operands through replace,
not through apply_to.  Replace with a target rendering as the atom x
returns a same-kind operator with the value bound as first operand, and a
target rendering as the atom y binds the second operand; apply_to on an
operator with both operands bound to atoms computes op on the two boxed
values, wraps the result in a SymbolAtom, and applies that atom to the
remaining arguments. -/
theorem binop_bind_via_replace_then_apply :
    (∀ (kd : OpKind) (xo yo : Option Term) (k w : Term),
        pyEq k (Term.symbolAtom (Literate.str "x")) = true →
        Term.replace (Term.binaryOperator kd xo yo) k w
          = Term.binaryOperator kd (some w) yo)
    ∧ (∀ (kd : OpKind) (xo yo : Option Term) (k w : Term),
        pyEq k (Term.symbolAtom (Literate.str "y")) = true →
        Term.replace (Term.binaryOperator kd xo yo) k w
          = Term.binaryOperator kd xo (some w))
    ∧ (∀ (fuel : Nat) (kd : OpKind) (a b r : Literate) (xs : Term),
        OpKind.op kd a b = Except.ok r →
        applyTo (fuel + 1)
            (Term.binaryOperator kd (some (Term.symbolAtom a)) (some (Term.symbolAtom b))) xs
          = applyTo fuel (Term.symbolAtom r) xs) := by
  refine ⟨?_, ?_, ?_⟩
  · intro kd xo yo k w h
    simp [Term.replace, h]
  · intro kd xo yo k w h
    have hstr : Term.str k = Term.str (Term.symbolAtom (Literate.str "y")) := by
      have h2 := h
      simp only [pyEq, beq_iff_eq] at h2
      exact h2
    have hx : pyEq k (Term.symbolAtom (Literate.str "x")) = false := by
      simp only [pyEq, hstr]
      decide
    simp [Term.replace, hx, h]
  · intro fuel kd a b r xs h
    simp only [applyTo, getLiterate, h]

/-- Witness for the amended binary-operator protocol theorem: binding 2
then 3 into a plus operator via replace and applying the fully bound
operator to the empty list. -/
theorem binop_bind_via_replace_then_apply_witness :
    pyEq (Term.symbolAtom (Literate.str "x")) (Term.symbolAtom (Literate.str "x")) = true
    ∧ Term.replace (Term.binaryOperator OpKind.plus none none)
        (Term.symbolAtom (Literate.str "x")) (Term.symbolAtom (Literate.int 2))
      = Term.binaryOperator OpKind.plus (some (Term.symbolAtom (Literate.int 2))) none
    ∧ pyEq (Term.symbolAtom (Literate.str "y")) (Term.symbolAtom (Literate.str "y")) = true
    ∧ Term.replace (Term.binaryOperator OpKind.plus (some (Term.symbolAtom (Literate.int 2))) none)
        (Term.symbolAtom (Literate.str "y")) (Term.symbolAtom (Literate.int 3))
      = Term.binaryOperator OpKind.plus (some (Term.symbolAtom (Literate.int 2)))
          (some (Term.symbolAtom (Literate.int 3)))
    ∧ OpKind.op OpKind.plus (Literate.int 2) (Literate.int 3) = Except.ok (Literate.int 5)
    ∧ applyTo 2 (Term.binaryOperator OpKind.plus (some (Term.symbolAtom (Literate.int 2)))
          (some (Term.symbolAtom (Literate.int 3)))) Term.nilSymbolList
      = applyTo 1 (Term.symbolAtom (Literate.int 5)) Term.nilSymbolList :=
  ⟨rfl,
   binop_bind_via_replace_then_apply.1 OpKind.plus none none _ _ rfl,
   rfl,
   binop_bind_via_replace_then_apply.2.1 OpKind.plus
     (some (Term.symbolAtom (Literate.int 2))) none _ _ rfl,
   rfl,
   binop_bind_via_replace_then_apply.2.2 1 OpKind.plus
     (Literate.int 2) (Literate.int 3) (Literate.int 5) Term.nilSymbolList rfl⟩

/-- Claim C9, counterexample: the divide operator fully bound to the
atoms 1 and 0 has no outstanding required operands, yet applying it to
the empty list is not the identity and yields no reduced self either; it
fails with ZeroDivisionError. -/
theorem apply_nil_divide_zero_error :
    applyTo 2 (Term.binaryOperator OpKind.divide (some (Term.symbolAtom (Literate.int 1)))
        (some (Term.symbolAtom (Literate.int 0)))) Term.nilSymbolList
      = Except.error Err.zeroDivisionError
    ∧ isOkE (applyTo 2 (Term.binaryOperator OpKind.divide (some (Term.symbolAtom (Literate.int 1)))
        (some (Term.symbolAtom (Literate.int 0)))) Term.nilSymbolList) = false :=
  ⟨rfl, rfl⟩

/-- Claim C9, amended: applying a SymbolAtom, the empty NilSymbolList, or
a LambdaFunction to the empty list returns the term itself, and applying
a binary operator bound to two atoms whose operation succeeds returns the
SymbolAtom holding the operation result (its fully reduced self); a bound
operator whose operation fails, such as divide by zero, fails instead. -/
theorem apply_to_empty_identity :
    (∀ (fuel : Nat) (v : Literate),
        applyTo (fuel + 1) (Term.symbolAtom v) Term.nilSymbolList
          = Except.ok (Term.symbolAtom v))
    ∧ (∀ fuel : Nat,
        applyTo (fuel + 1) Term.nilSymbolList Term.nilSymbolList
          = Except.ok Term.nilSymbolList)
    ∧ (∀ (fuel : Nat) (p b : Term),
        applyTo (fuel + 1) (Term.lambdaFunction p b) Term.nilSymbolList
          = Except.ok (Term.lambdaFunction p b))
    ∧ (∀ (fuel : Nat) (kd : OpKind) (a b r : Literate),
        OpKind.op kd a b = Except.ok r →
        applyTo (fuel + 1 + 1)
            (Term.binaryOperator kd (some (Term.symbolAtom a)) (some (Term.symbolAtom b)))
            Term.nilSymbolList
          = Except.ok (Term.symbolAtom r)) := by
  refine ⟨fun _ _ => rfl, fun _ => rfl, fun _ _ _ => rfl, ?_⟩
  intro fuel kd a b r h
  simp only [applyTo, getLiterate, h]

/-- Witness for the identity-on-empty theorem at the plus operator bound
to the atoms 2 and 3. -/
theorem apply_to_empty_identity_witness :
    OpKind.op OpKind.plus (Literate.int 2) (Literate.int 3) = Except.ok (Literate.int 5)
    ∧ applyTo 2 (Term.binaryOperator OpKind.plus (some (Term.symbolAtom (Literate.int 2)))
        (some (Term.symbolAtom (Literate.int 3)))) Term.nilSymbolList
      = Except.ok (Term.symbolAtom (Literate.int 5)) :=
  ⟨rfl, apply_to_empty_identity.2.2.2 0 OpKind.plus
    (Literate.int 2) (Literate.int 3) (Literate.int 5) rfl⟩
